import Mathlib

/-!
Verification of the data-normalization and item-attachment layer of the
multi-user-dungeon repository (src/database/data_loader.py and
src/database/create_item.py), as a shallow embedding in Lean.

Modelling conventions:
* Python values appearing in the loaded JSON documents and in DynamoDB
  records are embedded as the inductive type `Value` (null, bool, int,
  float, Decimal, str, generated identifier, list, dict).
* A Python `float` leaf is represented by the rational number denoted by
  `str(x)` (Python prints the shortest decimal that round-trips, and
  `Decimal(str(x))` denotes exactly that decimal), so
  `Decimal(str(x))` maps `Value.vfloat q` to `Value.vdec q`.
* `uuid.uuid4()` is modelled as a fresh-name supply: the n-th draw of the
  generator yields the identifier `Ident.uuid n`.  Authored identifiers in
  documents are strings (`Value.vstr`), so generated identifiers live in a
  different identity space, reflecting the negligible-collision guarantee
  of version-4 UUIDs.
* A DynamoDB table is an association list from its key attribute's value
  to the stored record; `put_item` is an upsert that replaces in place the
  record under an existing key and otherwise appends, `delete_item`
  removes the key, `get_item` is association lookup.  The list order
  models the (stable) scan order.
* `boto3` request failures (`ClientError`) are injected through explicit
  fault flags; an uncaught Python exception (e.g. `int()` on a
  non-numeric value) is modelled by `Option.none`.
-/

namespace MUD

/-- Identity space of freshly generated item identifiers:
`Ident.uuid n` is the n-th identifier drawn from the `uuid.uuid4` supply. -/
inductive Ident where
  | uuid (n : Nat)
deriving DecidableEq, Repr

/-- Shallow embedding of the Python/JSON/DynamoDB values handled by the
repository: null, booleans, ints, floats (as the rational their `str`
denotes), `decimal.Decimal` values, strings, generated item identifiers,
lists, and string-keyed dicts (as association lists in insertion order). -/
inductive Value where
  | vnull
  | vbool (b : Bool)
  | vint (n : Int)
  | vfloat (q : ℚ)
  | vdec (q : ℚ)
  | vstr (s : String)
  | vid (i : Ident)
  | vlist (l : List Value)
  | vdict (d : List (String × Value))
deriving Repr

/-- A Python dict with string keys, e.g. a JSON document or a DynamoDB
record, kept in insertion order. -/
abbrev PyDict := List (String × Value)

section TableOps

variable {K : Type} {V : Type} [DecidableEq K]

/-- Association-list lookup: `d[k]` / `table.get_item(Key=k)`. -/
def lookupT (k : K) : List (K × V) → Option V
  | [] => none
  | (k', v) :: t => if k' = k then some v else lookupT k t

/-- Upsert, the semantics of `put_item`: replace in place the entry under
an existing key, otherwise append a fresh entry. -/
def putU (k : K) (v : V) : List (K × V) → List (K × V)
  | [] => [(k, v)]
  | (k', v') :: t => if k' = k then (k, v) :: t else (k', v') :: putU k v t

/-- The operation `delete_item`: remove every entry stored under key `k`. -/
def deleteT (k : K) : List (K × V) → List (K × V)
  | [] => []
  | (k', v') :: t => if k' = k then deleteT k t else (k', v') :: deleteT k t

/-- Remove a key from a Python dict, the semantics of `dict.pop`. -/
def eraseKey (k : K) (d : List (K × V)) : List (K × V) := deleteT k d

/-- Apply a sequence of keyed writes to a table, in order. -/
def applyW (ws : List (K × V)) (t : List (K × V)) : List (K × V) :=
  ws.foldl (fun acc kv => putU kv.1 kv.2 acc) t

/-- The last write for key `k` in a write sequence, if any. -/
def lastW (k : K) : List (K × V) → Option V
  | [] => none
  | (k', v) :: ws =>
    match lastW k ws with
    | some v' => some v'
    | none => if k' = k then some v else none

theorem lookupT_putU_self (k : K) (v : V) (t : List (K × V)) :
    lookupT k (putU k v t) = some v := by
  induction t with
  | nil => simp [putU, lookupT]
  | cons kv t ih =>
    by_cases h : kv.1 = k
    · simp [putU, h, lookupT]
    · simp [putU, h, lookupT, ih]

theorem lookupT_putU_other (k k' : K) (v : V) (t : List (K × V)) (h : k' ≠ k) :
    lookupT k (putU k' v t) = lookupT k t := by
  induction t with
  | nil => simp [putU, lookupT, h]
  | cons kv t ih =>
    obtain ⟨k0, v0⟩ := kv
    by_cases hk : k0 = k'
    · subst hk
      simp [putU, lookupT, h]
    · by_cases hk2 : k0 = k
      · simp [putU, hk, lookupT, hk2, Ne.symm h]
      · simp [putU, hk, lookupT, hk2, ih]

theorem lookupT_deleteT (k : K) (t : List (K × V)) :
    lookupT k (deleteT k t) = none := by
  induction t with
  | nil => simp [deleteT, lookupT]
  | cons kv t ih =>
    by_cases h : kv.1 = k
    · simp [deleteT, h, ih]
    · simp [deleteT, h, lookupT, ih]

/-- Looking a key up after a write sequence yields the last write for that
key when there is one, and otherwise reads through to the original table. -/
theorem lookupT_applyW (ws : List (K × V)) (t : List (K × V)) (k : K) :
    lookupT k (applyW ws t) =
      match lastW k ws with
      | some v => some v
      | none => lookupT k t := by
  induction ws generalizing t with
  | nil => simp [applyW, lastW]
  | cons kv ws ih =>
    have : applyW (kv :: ws) t = applyW ws (putU kv.1 kv.2 t) := rfl
    rw [this, ih]
    cases hlast : lastW k ws with
    | some v => simp [lastW, hlast]
    | none =>
      by_cases hk : kv.1 = k
      · subst hk
        simp [lastW, hlast, lookupT_putU_self]
      · simp [lastW, hlast, hk, lookupT_putU_other k kv.1 kv.2 t hk]

/-- Applying the same write sequence twice yields the same mapping as
applying it once, key by key. -/
theorem lookupT_applyW_twice (ws : List (K × V)) (t : List (K × V)) (k : K) :
    lookupT k (applyW ws (applyW ws t)) = lookupT k (applyW ws t) := by
  rw [lookupT_applyW, lookupT_applyW]
  cases lastW k ws <;> simp

end TableOps

/-- The operation `d.get(k, default)` on a Python dict. -/
def dictGetD (d : PyDict) (k : String) (default : Value) : Value :=
  match lookupT k d with
  | some v => v
  | none => default

/-- The operation `d[k]` on a Python dict, `none` when the key is absent (KeyError). -/
def dictGet (d : PyDict) (k : String) : Option Value := lookupT k d

mutual

/-- The operation `convert_to_dynamodb_format` (data_loader.py lines 28-45): recurse
through dicts and lists, turn every float leaf `x` into `Decimal(str(x))`
(the same rational number, see the modelling note at the top), and return
every other value unchanged. -/
def convert_to_dynamodb_format : Value → Value
  | .vdict d => .vdict (convertPairs d)
  | .vlist l => .vlist (convertList l)
  | .vfloat q => .vdec q
  | v => v

/-- Elementwise `convert_to_dynamodb_format` over a Python list. -/
def convertList : List Value → List Value
  | [] => []
  | v :: vs => convert_to_dynamodb_format v :: convertList vs

/-- The operation `convert_to_dynamodb_format` over the entries of a Python dict. -/
def convertPairs : PyDict → PyDict
  | [] => []
  | (k, v) :: kvs => (k, convert_to_dynamodb_format v) :: convertPairs kvs

end

mutual

/-- A value contains no float leaf anywhere. -/
def floatFree : Value → Bool
  | .vdict d => floatFreePairs d
  | .vlist l => floatFreeList l
  | .vfloat _ => false
  | _ => true

/-- The operation `floatFree` over a Python list. -/
def floatFreeList : List Value → Bool
  | [] => true
  | v :: vs => floatFree v && floatFreeList vs

/-- The operation `floatFree` over the entries of a Python dict. -/
def floatFreePairs : PyDict → Bool
  | [] => true
  | (_, v) :: kvs => floatFree v && floatFreePairs kvs

end

mutual

/-- The structural skeleton of a value: every leaf payload is erased to
null, while the nesting structure of lists and dicts and the dict keys
are kept. -/
def shape : Value → Value
  | .vdict d => .vdict (shapePairs d)
  | .vlist l => .vlist (shapeList l)
  | _ => .vnull

/-- The operation `shape` over a Python list. -/
def shapeList : List Value → List Value
  | [] => []
  | v :: vs => shape v :: shapeList vs

/-- The operation `shape` over the entries of a Python dict. -/
def shapePairs : PyDict → PyDict
  | [] => []
  | (k, v) :: kvs => (k, shape v) :: shapePairs kvs

end

mutual

theorem floatFree_convert (v : Value) :
    floatFree (convert_to_dynamodb_format v) = true := by
  cases v with
  | vdict d => simp [convert_to_dynamodb_format, floatFree, floatFreePairs_convertPairs]
  | vlist l => simp [convert_to_dynamodb_format, floatFree, floatFreeList_convertList]
  | vfloat q => simp [convert_to_dynamodb_format, floatFree]
  | vnull => simp [convert_to_dynamodb_format, floatFree]
  | vbool b => simp [convert_to_dynamodb_format, floatFree]
  | vint n => simp [convert_to_dynamodb_format, floatFree]
  | vdec q => simp [convert_to_dynamodb_format, floatFree]
  | vstr s => simp [convert_to_dynamodb_format, floatFree]
  | vid i => simp [convert_to_dynamodb_format, floatFree]

theorem floatFreeList_convertList (l : List Value) :
    floatFreeList (convertList l) = true := by
  cases l with
  | nil => simp [convertList, floatFreeList]
  | cons v vs =>
    simp [convertList, floatFreeList, floatFree_convert v, floatFreeList_convertList vs]

theorem floatFreePairs_convertPairs (d : PyDict) :
    floatFreePairs (convertPairs d) = true := by
  cases d with
  | nil => simp [convertPairs, floatFreePairs]
  | cons kv kvs =>
    obtain ⟨k, v⟩ := kv
    simp [convertPairs, floatFreePairs, floatFree_convert v, floatFreePairs_convertPairs kvs]

end

mutual

theorem shape_convert (v : Value) :
    shape (convert_to_dynamodb_format v) = shape v := by
  cases v with
  | vdict d => simp [convert_to_dynamodb_format, shape, shapePairs_convertPairs]
  | vlist l => simp [convert_to_dynamodb_format, shape, shapeList_convertList]
  | vfloat q => simp [convert_to_dynamodb_format, shape]
  | vnull => simp [convert_to_dynamodb_format, shape]
  | vbool b => simp [convert_to_dynamodb_format, shape]
  | vint n => simp [convert_to_dynamodb_format, shape]
  | vdec q => simp [convert_to_dynamodb_format, shape]
  | vstr s => simp [convert_to_dynamodb_format, shape]
  | vid i => simp [convert_to_dynamodb_format, shape]

theorem shapeList_convertList (l : List Value) :
    shapeList (convertList l) = shapeList l := by
  cases l with
  | nil => simp [convertList, shapeList]
  | cons v vs =>
    simp [convertList, shapeList, shape_convert v, shapeList_convertList vs]

theorem shapePairs_convertPairs (d : PyDict) :
    shapePairs (convertPairs d) = shapePairs d := by
  cases d with
  | nil => simp [convertPairs, shapePairs]
  | cons kv kvs =>
    obtain ⟨k, v⟩ := kv
    simp [convertPairs, shapePairs, shape_convert v, shapePairs_convertPairs kvs]

end

mutual

theorem convert_of_floatFree (v : Value) (h : floatFree v = true) :
    convert_to_dynamodb_format v = v := by
  cases v with
  | vdict d =>
    simp only [floatFree] at h
    simp [convert_to_dynamodb_format, convertPairs_of_floatFreePairs d h]
  | vlist l =>
    simp only [floatFree] at h
    simp [convert_to_dynamodb_format, convertList_of_floatFreeList l h]
  | vfloat q => simp [floatFree] at h
  | vnull => simp [convert_to_dynamodb_format]
  | vbool b => simp [convert_to_dynamodb_format]
  | vint n => simp [convert_to_dynamodb_format]
  | vdec q => simp [convert_to_dynamodb_format]
  | vstr s => simp [convert_to_dynamodb_format]
  | vid i => simp [convert_to_dynamodb_format]

theorem convertList_of_floatFreeList (l : List Value) (h : floatFreeList l = true) :
    convertList l = l := by
  cases l with
  | nil => simp [convertList]
  | cons v vs =>
    simp only [floatFreeList, Bool.and_eq_true] at h
    simp [convertList, convert_of_floatFree v h.1, convertList_of_floatFreeList vs h.2]

theorem convertPairs_of_floatFreePairs (d : PyDict) (h : floatFreePairs d = true) :
    convertPairs d = d := by
  cases d with
  | nil => simp [convertPairs]
  | cons kv kvs =>
    obtain ⟨k, v⟩ := kv
    simp only [floatFreePairs, Bool.and_eq_true] at h
    simp [convertPairs, convert_of_floatFree v h.1, convertPairs_of_floatFreePairs kvs h.2]

end

/-- The operation `Decimal(str(x))` for a Python value `x`.  For an int, a float or a
`Decimal` this denotes the same number (see the modelling note on floats).
For a bool, `str` yields "True"/"False" and `Decimal` raises
`InvalidOperation`; for the remaining values `str`/`Decimal` likewise
raises (string payloads that happen to parse as decimal literals do not
occur in this system and are not modelled), so those cases are `none`. -/
def decimalOfStr : Value → Option ℚ
  | .vint n => some (n : ℚ)
  | .vfloat q => some q
  | .vdec q => some q
  | _ => none

/-- The operation `{k: Decimal(str(v)) for k, v in d.items()}` over the entries of a
dict, failing if any value fails the `Decimal` conversion. -/
def decimalPairs : PyDict → Option (List (String × ℚ))
  | [] => some []
  | (k, v) :: kvs =>
    match decimalOfStr v, decimalPairs kvs with
    | some q, some rest => some ((k, q) :: rest)
    | _, _ => none

/-- The trait_mods comprehension of create_item.py line 116: `.items()`
raises `AttributeError` unless the value is a dict, then every value goes
through `Decimal(str(v))`. -/
def traitModsOf : Value → Option (List (String × ℚ))
  | .vdict d => decimalPairs d
  | _ => none

/-- The new-item record built by `create_new_item_from_prototype`
(create_item.py lines 102-123), with the fields the source forces typed
concretely (`ItemID`, the Decimal fields, `IsPrototype`, `IsWorn`) and the
fields copied verbatim from the prototype kept as raw values.  The
source's "Value" attribute is named `ValueAttr` here because `Value` is
the name of the embedded value type. -/
structure Item where
  ItemID : Ident
  PrototypeID : Value
  Name : Value
  Description : Value
  Mass : ℚ
  ValueAttr : ℚ
  Stackable : Value
  MaxStack : ℚ
  Quantity : ℚ
  Wearable : Value
  WornOn : Value
  Verbs : Value
  Overrides : Value
  TraitMods : List (String × ℚ)
  Container : Value
  IsPrototype : Bool
  IsWorn : Bool
  CanPickUp : Value
  Contents : Value
  Metadata : Value
deriving Repr

/-- The operation `create_new_item_from_prototype` (create_item.py lines 92-124): build
a new item from a prototype dict, reading the template fields with
`prototype.get(key, default)` under the snake_case key names the source
uses, converting the numeric fields through `Decimal(str(...))`, and
forcing the instance-only fields.  `n` is the state of the `uuid.uuid4`
supply.  The result is `none` exactly when one of the `Decimal`
conversions or the trait_mods `.items()` call raises in Python. -/
def create_new_item_from_prototype (n : Nat) (prototype : PyDict) : Option Item :=
  match decimalOfStr (dictGetD prototype "mass" (.vint 0)),
        decimalOfStr (dictGetD prototype "value" (.vint 0)),
        decimalOfStr (dictGetD prototype "max_stack" (.vint 1)),
        traitModsOf (dictGetD prototype "trait_mods" (.vdict [])) with
  | some mass, some val, some maxStack, some tmods =>
    some {
      ItemID := .uuid n
      PrototypeID := dictGetD prototype "PrototypeID" (.vstr "No ID")
      Name := dictGetD prototype "name" (.vstr "Unnamed Item")
      Description := dictGetD prototype "description" (.vstr "")
      Mass := mass
      ValueAttr := val
      Stackable := dictGetD prototype "stackable" (.vbool false)
      MaxStack := maxStack
      Quantity := 1
      Wearable := dictGetD prototype "wearable" (.vbool false)
      WornOn := dictGetD prototype "worn_on" (.vlist [])
      Verbs := dictGetD prototype "verbs" (.vdict [])
      Overrides := dictGetD prototype "overrides" (.vdict [])
      TraitMods := tmods
      Container := dictGetD prototype "container" (.vbool false)
      IsPrototype := false
      IsWorn := false
      CanPickUp := dictGetD prototype "can_pick_up" (.vbool true)
      Contents := dictGetD prototype "contents" (.vlist [])
      Metadata := dictGetD prototype "metadata" (.vdict [])
    }
  | _, _, _, _ => none

/-- The five DynamoDB tables the system touches, each an association list
from the table's key attribute to the stored record. -/
structure Store where
  items : List (Ident × Item)
  rooms : List (Int × PyDict)
  exits : List (String × PyDict)
  archetypes : List (String × PyDict)
  prototypes : List (String × PyDict)
deriving Repr

/-- Injected `ClientError` outcomes for the four store calls the attach
protocol makes, so partial-failure schedules can be stated explicitly. -/
structure Faults where
  putItemFails : Bool
  getRoomFails : Bool
  updateRoomFails : Bool
  deleteItemFails : Bool
deriving Repr

/-- No injected store failures. -/
def noFaults : Faults :=
  { putItemFails := false, getRoomFails := false
    updateRoomFails := false, deleteItemFails := false }

/-- Python `int(...)` on the values that reach it in this system: ints
pass through, integral Decimals (what DynamoDB returns for stored
numbers) convert, bools coerce to 0/1; `int` of anything else that occurs
here raises, which is modelled as `none`. -/
def asInt : Value → Option Int
  | .vint n => some n
  | .vdec q => if q.den = 1 then some q.num else none
  | .vbool b => some (if b then 1 else 0)
  | _ => none

/-- The ItemIDs coercion of add_item_to_room (create_item.py lines
212-219): `None` becomes the empty list, a bare string is wrapped in a
singleton list, a list passes through, and any other type makes the
function return failure (`none` here selects that path). -/
def normItemIds : Value → Option (List Value)
  | .vnull => some []
  | .vstr s => some [.vstr s]
  | .vlist l => some l
  | _ => none

/-- The operation `add_item_to_table` (create_item.py lines 156-174): `put_item` the new
item into the items table, reporting success, or report failure on a
`ClientError` leaving the store unchanged. -/
def add_item_to_table (f : Faults) (s : Store) (it : Item) : Store × Bool :=
  if f.putItemFails then (s, false)
  else ({ s with items := putU it.ItemID it s.items }, true)

/-- The operation `add_item_to_room` (create_item.py lines 177-252): read the room
fresh, coerce its ItemIDs, append the new ItemID and write the updated
list back; on a `ClientError` from the update, attempt a compensating
delete of the item and report failure.  A missing room reports failure
with no compensating action.  `none` models the uncaught exception when
`int(room.get("RoomID", 0))` raises. -/
def add_item_to_room (f : Faults) (s : Store) (room : PyDict) (it : Item) :
    Option (Store × Bool) :=
  match asInt (dictGetD room "RoomID" (.vint 0)) with
  | none => none
  | some roomId =>
    if f.getRoomFails then some (s, false)
    else
      match lookupT roomId s.rooms with
      | none => some (s, false)
      | some currentRoom =>
        match normItemIds (dictGetD currentRoom "ItemIDs" (.vlist [])) with
        | none => some (s, false)
        | some ids =>
          let newIds := ids ++ [Value.vid it.ItemID]
          if f.updateRoomFails then
            if f.deleteItemFails then some (s, false)
            else some ({ s with items := deleteT it.ItemID s.items }, false)
          else
            some ({ s with
              rooms := putU roomId (putU "ItemIDs" (.vlist newIds) currentRoom) s.rooms },
              true)

/-- The attach operation as driven by create_item.py's main loop lines
298-307: `add_item_to_table` first, and only on its success
`add_item_to_room`. -/
def attach (f : Faults) (s : Store) (room : PyDict) (it : Item) :
    Option (Store × Bool) :=
  match add_item_to_table f s it with
  | (s1, true) => add_item_to_room f s1 room it
  | (s1, false) => some (s1, false)

/-- The string under a value that is used as a string-typed DynamoDB key;
a non-string value in a string key slot fails validation at the store. -/
def keyStr : Value → Option String
  | .vstr s => some s
  | _ => none

/-- The body of store_exits' loop (data_loader.py lines 58-66): for each
exit document build the four-field exit record, convert it, and buffer it
into the batch keyed by ExitID.  A missing field raises `KeyError` and a
non-dict entry raises `TypeError`; either is caught by the surrounding
handler, so the entries already buffered are flushed and the rest of the
batch is abandoned (`false` = the error was logged). -/
def exitsWrites : List Value → List (String × PyDict) × Bool
  | [] => ([], true)
  | .vdict d :: rest =>
    match dictGet d "ExitID", dictGet d "Direction", dictGet d "TargetRoom",
          dictGet d "Visible" with
    | some eid, some dir, some tgt, some vis =>
      match keyStr (convert_to_dynamodb_format eid) with
      | some k =>
        ((k, convertPairs
            [("ExitID", eid), ("Direction", dir), ("TargetRoom", tgt), ("Visible", vis)])
          :: (exitsWrites rest).1,
         (exitsWrites rest).2)
      | none => ([], false)
    | _, _, _, _ => ([], false)
  | _ :: _ => ([], false)

/-- The operation `store_exits` (data_loader.py lines 48-71) as the keyed write sequence
it issues for a given document, together with its no-error flag. -/
def store_exits (doc : PyDict) : List (String × PyDict) × Bool :=
  match dictGetD doc "exits" (.vlist []) with
  | .vlist l => exitsWrites l
  | _ => ([], false)

/-- The body of store_rooms' loop (data_loader.py lines 84-94): build the
six-field room record (ItemID defaulting to the empty list), convert it,
and buffer it keyed by the integer RoomID; a missing required field
abandons the rest of the batch as in `exitsWrites`. -/
def roomsWrites : List Value → List (Int × PyDict) × Bool
  | [] => ([], true)
  | .vdict d :: rest =>
    match dictGet d "RoomID", dictGet d "Area", dictGet d "Title",
          dictGet d "Description", dictGet d "ExitID" with
    | some rid, some area, some title, some desc, some exid =>
      match asInt (convert_to_dynamodb_format rid) with
      | some k =>
        ((k, convertPairs
            [("RoomID", rid), ("Area", area), ("Title", title), ("Description", desc),
             ("ExitID", exid), ("ItemID", dictGetD d "ItemID" (.vlist []))])
          :: (roomsWrites rest).1,
         (roomsWrites rest).2)
      | none => ([], false)
    | _, _, _, _, _ => ([], false)
  | _ :: _ => ([], false)

/-- The operation `store_rooms` (data_loader.py lines 74-99) as its keyed write
sequence plus no-error flag. -/
def store_rooms (doc : PyDict) : List (Int × PyDict) × Bool :=
  match dictGetD doc "rooms" (.vlist []) with
  | .vlist l => roomsWrites l
  | _ => ([], false)

/-- The body of store_archetypes' loop (data_loader.py lines 112-120):
each archetype is keyed by its document key (the name), which also
becomes the ArchetypeName field; a non-dict archetype value raises and
abandons the rest. -/
def archetypesWrites : List (String × Value) → List (String × PyDict) × Bool
  | [] => ([], true)
  | (name, .vdict a) :: rest =>
    ((name, convertPairs
        [("ArchetypeName", .vstr name),
         ("Description", dictGetD a "Description" (.vstr "")),
         ("Attributes", dictGetD a "Attributes" (.vdict [])),
         ("Abilities", dictGetD a "Abilities" (.vdict []))])
      :: (archetypesWrites rest).1,
     (archetypesWrites rest).2)
  | (_, _) :: _ => ([], false)

/-- The operation `store_archetypes` (data_loader.py lines 102-125) as its keyed write
sequence plus no-error flag. -/
def store_archetypes (doc : PyDict) : List (String × PyDict) × Bool :=
  match dictGetD doc "archetypes" (.vdict []) with
  | .vdict m => archetypesWrites m
  | _ => ([], false)

/-- The body of store_item_prototypes' loop (data_loader.py lines
139-141): `prototype["PrototypeID"] = prototype.pop("PrototypeID")`
raises `KeyError` when the field is missing — caught outside the loop, so
the rest of the batch is abandoned — and otherwise moves the field to the
end of the dict; the whole (converted) prototype is buffered keyed by its
PrototypeID. -/
def prototypesWrites : List Value → List (String × PyDict) × Bool
  | [] => ([], true)
  | .vdict d :: rest =>
    match dictGet d "PrototypeID" with
    | none => ([], false)
    | some pid =>
      match keyStr (convert_to_dynamodb_format pid) with
      | none => ([], false)
      | some k =>
        ((k, convertPairs (eraseKey "PrototypeID" d ++ [("PrototypeID", pid)]))
          :: (prototypesWrites rest).1,
         (prototypesWrites rest).2)
  | _ :: _ => ([], false)

/-- The operation `store_item_prototypes` (data_loader.py lines 128-146) as its keyed
write sequence plus no-error flag. -/
def store_item_prototypes (doc : PyDict) : List (String × PyDict) × Bool :=
  match dictGetD doc "itemPrototypes" (.vlist []) with
  | .vlist l => prototypesWrites l
  | _ => ([], false)

/-- The four authored JSON documents driving data_loader.py's main
sequence. -/
structure WorldDocs where
  exitsDoc : PyDict
  roomsDoc : PyDict
  archetypesDoc : PyDict
  prototypesDoc : PyDict

/-- One run of data_loader.py's store sequence (main, lines 340-354):
apply each store_* function's writes to its table; the items table is
never touched by the bulk load. -/
def loadWorld (d : WorldDocs) (s : Store) : Store :=
  { s with
    exits := applyW (store_exits d.exitsDoc).1 s.exits
    rooms := applyW (store_rooms d.roomsDoc).1 s.rooms
    archetypes := applyW (store_archetypes d.archetypesDoc).1 s.archetypes
    prototypes := applyW (store_item_prototypes d.prototypesDoc).1 s.prototypes }

/-- The in-memory dict keys for load_exits: each scanned record is keyed
by its own ExitID field; a record lacking the field raises `KeyError`,
which load_exits' handler turns into the empty result. -/
def exitKeyPairs : List PyDict → Option (List (String × PyDict))
  | [] => some []
  | r :: rest =>
    match dictGet r "ExitID" with
    | some (.vstr s) => (exitKeyPairs rest).map (fun ps => (s, r) :: ps)
    | _ => none

/-- The operation `load_exits` (data_loader.py lines 149-170): scan the exits table and
return the records re-keyed in memory by their ExitID field; any error
yields the empty dict. -/
def load_exits (t : List (String × PyDict)) : List (String × PyDict) :=
  match exitKeyPairs (t.map Prod.snd) with
  | some ps => applyW ps []
  | none => []

/-- The in-memory dict keys for load_rooms: each scanned record keyed by
its own RoomID field (an integer). -/
def roomKeyPairs : List PyDict → Option (List (Int × PyDict))
  | [] => some []
  | r :: rest =>
    match dictGet r "RoomID" with
    | some v =>
      match asInt v with
      | some n => (roomKeyPairs rest).map (fun ps => (n, r) :: ps)
      | none => none
    | none => none

/-- The operation `load_rooms` (data_loader.py lines 173-194): scan the rooms table and
return the records re-keyed in memory by their RoomID field; any error
yields the empty dict. -/
def load_rooms (t : List (Int × PyDict)) : List (Int × PyDict) :=
  match roomKeyPairs (t.map Prod.snd) with
  | some ps => applyW ps []
  | none => []

mutual

/-- Whether the string `s` occurs as a string leaf anywhere inside a
value. -/
def occursStr (s : String) : Value → Bool
  | .vstr t => t == s
  | .vlist l => occursStrList s l
  | .vdict d => occursStrPairs s d
  | _ => false

/-- The operation `occursStr` over a Python list. -/
def occursStrList (s : String) : List Value → Bool
  | [] => false
  | v :: vs => occursStr s v || occursStrList s vs

/-- The operation `occursStr` over the entries of a Python dict. -/
def occursStrPairs (s : String) : PyDict → Bool
  | [] => false
  | (_, v) :: kvs => occursStr s v || occursStrPairs s kvs

end

/-! Concrete fixtures used by witnesses and counterexamples. -/

/-- A store with all five tables empty. -/
def emptyStore : Store :=
  { items := [], rooms := [], exits := [], archetypes := [], prototypes := [] }

/-- The item produced by `create_new_item_from_prototype` from the empty
prototype with the first generated identifier. -/
def item0 : Item :=
  { ItemID := .uuid 0, PrototypeID := .vstr "No ID", Name := .vstr "Unnamed Item",
    Description := .vstr "", Mass := 0, ValueAttr := 0, Stackable := .vbool false,
    MaxStack := 1, Quantity := 1, Wearable := .vbool false, WornOn := .vlist [],
    Verbs := .vdict [], Overrides := .vdict [], TraitMods := [],
    Container := .vbool false, IsPrototype := false, IsWorn := false,
    CanPickUp := .vbool true, Contents := .vlist [], Metadata := .vdict [] }

/-- A stored record for room 7 with an empty item-reference list. -/
def roomRec7 : PyDict :=
  [("RoomID", .vint 7), ("Title", .vstr "Hall"), ("ItemIDs", .vlist [])]

/-- A store whose rooms table holds exactly room 7. -/
def storeWithRoom : Store := { emptyStore with rooms := [(7, roomRec7)] }

/-- The (possibly stale) room dict handed to `add_item_to_room`; only its
RoomID is consulted. -/
def room7dict : PyDict := [("RoomID", .vint 7)]

/-- The store state after a successful attach of `item0` to room 7 of
`storeWithRoom`. -/
def attachedStore : Store :=
  { emptyStore with
    items := [(Ident.uuid 0, item0)],
    rooms := [(7, [("RoomID", .vint 7), ("Title", .vstr "Hall"),
                   ("ItemIDs", .vlist [.vid (.uuid 0)])])] }

/-! ## Claim C1 -/

/-- C1: the attach operation (`add_item_to_table` followed by
`add_item_to_room`) returns success only if, at return time, the items
table contains a record under the item's ItemID and the room's
item-reference list contains that ItemID; every non-success end state is
reported as failure. -/
theorem attach_success_postcondition (f : Faults) (s : Store) (room : PyDict)
    (it : Item) (s' : Store) (h : attach f s room it = some (s', true)) :
    lookupT it.ItemID s'.items = some it ∧
    ∃ roomId roomRec ids,
      asInt (dictGetD room "RoomID" (.vint 0)) = some roomId ∧
      lookupT roomId s'.rooms = some roomRec ∧
      dictGetD roomRec "ItemIDs" (.vlist []) = .vlist ids ∧
      Value.vid it.ItemID ∈ ids := by
  by_cases hp : f.putItemFails
  · exfalso
    simp [attach, add_item_to_table, hp] at h
  · have h1 : add_item_to_room f { s with items := putU it.ItemID it s.items } room it
        = some (s', true) := by
      simpa [attach, add_item_to_table, hp] using h
    cases ha : asInt (dictGetD room "RoomID" (.vint 0)) with
    | none =>
      exfalso
      simp [add_item_to_room, ha] at h1
    | some roomId =>
      by_cases hg : f.getRoomFails
      · exfalso
        simp [add_item_to_room, ha, hg] at h1
      · cases hroom : lookupT roomId
            ({ s with items := putU it.ItemID it s.items } : Store).rooms with
        | none =>
          exfalso
          simp [add_item_to_room, ha, hg, hroom] at h1
        | some currentRoom =>
          cases hids : normItemIds (dictGetD currentRoom "ItemIDs" (.vlist [])) with
          | none =>
            exfalso
            simp [add_item_to_room, ha, hg, hroom, hids] at h1
          | some ids =>
            by_cases hu : f.updateRoomFails
            · exfalso
              by_cases hd : f.deleteItemFails <;>
                simp [add_item_to_room, ha, hg, hroom, hids, hu, hd] at h1
            · have h2 : s' =
                  { s with
                    items := putU it.ItemID it s.items,
                    rooms := putU roomId
                      (putU "ItemIDs" (.vlist (ids ++ [Value.vid it.ItemID])) currentRoom)
                      s.rooms } := by
                have := h1
                simp [add_item_to_room, ha, hg, hroom, hids, hu] at this
                exact this.symm
              subst h2
              refine ⟨lookupT_putU_self _ _ _,
                roomId, putU "ItemIDs" (.vlist (ids ++ [Value.vid it.ItemID])) currentRoom,
                ids ++ [Value.vid it.ItemID], rfl, lookupT_putU_self _ _ _, ?_, ?_⟩
              · simp [dictGetD, lookupT_putU_self]
              · simp

/-- Closed instance of C1: attaching `item0` to room 7 succeeds and both
postconditions hold in the resulting store. -/
theorem attach_success_postcondition_witness :
    lookupT item0.ItemID attachedStore.items = some item0 ∧
    ∃ roomId roomRec ids,
      asInt (dictGetD room7dict "RoomID" (.vint 0)) = some roomId ∧
      lookupT roomId attachedStore.rooms = some roomRec ∧
      dictGetD roomRec "ItemIDs" (.vlist []) = .vlist ids ∧
      Value.vid item0.ItemID ∈ ids :=
  attach_success_postcondition noFaults storeWithRoom room7dict item0 attachedStore rfl

/-! ## Claim C2 -/

/-- C2 counterexample: with no injected faults and an empty rooms table,
attach puts `item0` into the items table, the fresh room read finds no
room, the operation reports failure — and contrary to the claim the item
record is *not* deleted: it is still stored under `item0.ItemID`. -/
theorem attach_room_missing_no_rollback_counterexample :
    attach noFaults emptyStore room7dict item0 =
      some ({ emptyStore with items := [(Ident.uuid 0, item0)] }, false) ∧
    lookupT item0.ItemID [(Ident.uuid 0, item0)] ≠ none := by
  refine ⟨rfl, ?_⟩
  simp [item0, lookupT]

/-- C2 (amended): when the fresh read of the room record finds that the
room does not exist, attach reports failure but performs no compensating
rollback — the item record just written remains in the items table. -/
theorem attach_room_missing_reports_failure_keeps_item (f : Faults) (s : Store)
    (room : PyDict) (it : Item) (roomId : Int)
    (hp : f.putItemFails = false) (hg : f.getRoomFails = false)
    (hr : asInt (dictGetD room "RoomID" (.vint 0)) = some roomId)
    (habs : lookupT roomId s.rooms = none) :
    attach f s room it = some ({ s with items := putU it.ItemID it s.items }, false) ∧
    lookupT it.ItemID (putU it.ItemID it s.items) = some it := by
  refine ⟨?_, lookupT_putU_self _ _ _⟩
  simp [attach, add_item_to_table, hp, add_item_to_room, hr, hg, habs]

/-- Closed instance for the amended C2: the room-missing run on the empty
store returns failure with the orphaned item still stored. -/
theorem attach_room_missing_reports_failure_keeps_item_witness :
    attach noFaults emptyStore room7dict item0 =
      some ({ emptyStore with items := putU item0.ItemID item0 emptyStore.items }, false) ∧
    lookupT item0.ItemID (putU item0.ItemID item0 emptyStore.items) = some item0 :=
  attach_room_missing_reports_failure_keeps_item noFaults emptyStore room7dict item0 7
    rfl rfl rfl rfl

/-! ## Claim C3 -/

/-- C3: if the room-update write fails after the item record was written,
a compensating delete of that item record is issued and the operation
reports failure, so a subsequent items-table lookup of the ItemID returns
absent (the compensating delete itself succeeding). -/
theorem attach_update_failure_rolls_back (f : Faults) (s : Store) (room : PyDict)
    (it : Item) (roomId : Int) (currentRoom : PyDict) (ids : List Value)
    (hp : f.putItemFails = false) (hg : f.getRoomFails = false)
    (hu : f.updateRoomFails = true) (hd : f.deleteItemFails = false)
    (hr : asInt (dictGetD room "RoomID" (.vint 0)) = some roomId)
    (hroom : lookupT roomId s.rooms = some currentRoom)
    (hids : normItemIds (dictGetD currentRoom "ItemIDs" (.vlist [])) = some ids) :
    ∃ s', attach f s room it = some (s', false) ∧
      lookupT it.ItemID s'.items = none := by
  refine ⟨{ s with items := deleteT it.ItemID (putU it.ItemID it s.items) }, ?_,
    lookupT_deleteT _ _⟩
  simp [attach, add_item_to_table, hp, add_item_to_room, hr, hg, hroom, hids, hu, hd]

/-- Closed instance of C3: with the update write forced to fail on the
room-7 store, attach reports failure and the item is absent from the
items table afterwards. -/
theorem attach_update_failure_rolls_back_witness :
    ∃ s', attach { noFaults with updateRoomFails := true } storeWithRoom room7dict item0 =
        some (s', false) ∧
      lookupT item0.ItemID s'.items = none :=
  attach_update_failure_rolls_back { noFaults with updateRoomFails := true }
    storeWithRoom room7dict item0 7 roomRec7 [] rfl rfl rfl rfl rfl rfl rfl

/-! ## Claims C4, C5, C10 - item creation -/

/-- The instance-only fields `create_new_item_from_prototype` forces on
every successfully built item, read off from the match's success arm. -/
theorem create_new_item_fields (n : Nat) (p : PyDict) (it : Item)
    (h : create_new_item_from_prototype n p = some it) :
    it.ItemID = .uuid n ∧ it.Quantity = 1 ∧ it.IsWorn = false ∧
    it.IsPrototype = false ∧ it.Contents = dictGetD p "contents" (.vlist []) := by
  unfold create_new_item_from_prototype at h
  split at h
  · obtain rfl := Option.some.inj h
    exact ⟨rfl, rfl, rfl, rfl, rfl⟩
  · cases h

/-- C4: every item built by `create_new_item_from_prototype` has quantity
1 and worn flag false, and its ItemID is a freshly generated identifier:
it differs from every authored string identifier (in particular from the
prototype's PrototypeID) and from the ItemID generated by any other call
of the supply. -/
theorem create_new_item_quantity_worn_fresh (n m : Nat) (p p' : PyDict) (it it' : Item)
    (h : create_new_item_from_prototype n p = some it)
    (h' : create_new_item_from_prototype m p' = some it') (hnm : n ≠ m) :
    it.Quantity = 1 ∧ it.IsWorn = false ∧
    (∀ s : String, Value.vid it.ItemID ≠ Value.vstr s) ∧
    it.ItemID ≠ it'.ItemID := by
  obtain ⟨hid, hq, hw, -, -⟩ := create_new_item_fields n p it h
  obtain ⟨hid', -, -, -, -⟩ := create_new_item_fields m p' it' h'
  refine ⟨hq, hw, fun s => by simp, ?_⟩
  rw [hid, hid']
  simp [hnm]

/-- Closed instance of C4 at the empty prototype with supply states 0 and
1. -/
theorem create_new_item_quantity_worn_fresh_witness :
    item0.Quantity = 1 ∧ item0.IsWorn = false ∧
    (∀ s : String, Value.vid item0.ItemID ≠ Value.vstr s) ∧
    item0.ItemID ≠ ({ item0 with ItemID := .uuid 1 } : Item).ItemID :=
  create_new_item_quantity_worn_fresh 0 1 [] [] item0 { item0 with ItemID := .uuid 1 }
    rfl rfl (by decide)

/-- The concrete PascalCase torch prototype of the specification's
scenario. -/
def torchPrototype : PyDict :=
  [("PrototypeID", .vstr "torch-01"), ("Name", .vstr "Torch"),
   ("Mass", .vfloat (1 / 2)), ("Stackable", .vbool true), ("MaxStack", .vint 5)]

/-- C5: evaluating `create_new_item_from_prototype` on the PascalCase
torch prototype.  The source reads the snake_case keys "name", "mass",
"stackable" and "max_stack", so every PascalCase template field except
PrototypeID is ignored and replaced by its default: the result is an
unnamed item of mass 0, stackable false, max-stack 1 — not the Torch of
mass 0.5 the claim requires. -/
theorem create_new_item_pascal_case_ignored :
    create_new_item_from_prototype 0 torchPrototype =
      some { item0 with PrototypeID := .vstr "torch-01" } ∧
    ({ item0 with PrototypeID := .vstr "torch-01" } : Item).Name ≠ .vstr "Torch" ∧
    ({ item0 with PrototypeID := .vstr "torch-01" } : Item).Mass ≠ 1 / 2 ∧
    ({ item0 with PrototypeID := .vstr "torch-01" } : Item).Stackable ≠ .vbool true ∧
    ({ item0 with PrototypeID := .vstr "torch-01" } : Item).MaxStack ≠ 5 := by
  refine ⟨rfl, ?_, ?_, ?_, ?_⟩ <;> simp [item0]

/-- C10 counterexample: a prototype whose "mass" field holds a boolean
makes `Decimal(str(prototype.get("mass", 0)))` raise `InvalidOperation`
in Python (`str(True)` is not a decimal literal), so
`create_new_item_from_prototype` does not return normally — refuting the
claim that it never fails for every dictionary. -/
theorem create_new_item_boolean_mass_fails :
    create_new_item_from_prototype 0 [("mass", .vbool true)] = none := rfl

/-- A value of the kinds accepted where the source applies
`Decimal(str(...))`: an int, a float or a Decimal. -/
def numericValue : Value → Bool
  | .vint _ => true
  | .vfloat _ => true
  | .vdec _ => true
  | _ => false

/-- A prototype dict whose present fields carry values of the kinds the
construction's conversions accept: numeric mass, value and max_stack (or
absent, defaulting), and trait_mods a dict of numerics (or absent). -/
def protoFieldsWellKinded (p : PyDict) : Bool :=
  numericValue (dictGetD p "mass" (.vint 0)) &&
  numericValue (dictGetD p "value" (.vint 0)) &&
  numericValue (dictGetD p "max_stack" (.vint 1)) &&
  (match dictGetD p "trait_mods" (.vdict []) with
   | .vdict d => d.all (fun kv => numericValue kv.2)
   | _ => false)

theorem decimalOfStr_of_numeric (v : Value) (h : numericValue v = true) :
    ∃ q, decimalOfStr v = some q := by
  cases v <;> simp [numericValue] at h <;> exact ⟨_, rfl⟩

theorem decimalPairs_of_numeric (d : PyDict)
    (h : d.all (fun kv => numericValue kv.2) = true) :
    ∃ l, decimalPairs d = some l := by
  induction d with
  | nil => exact ⟨[], rfl⟩
  | cons kv kvs ih =>
    obtain ⟨k, v⟩ := kv
    simp only [List.all_cons, Bool.and_eq_true] at h
    obtain ⟨q, hq⟩ := decimalOfStr_of_numeric v h.1
    obtain ⟨l, hl⟩ := ih h.2
    exact ⟨(k, q) :: l, by simp [decimalPairs, hq, hl]⟩

/-- C10 (amended): for every prototype dict whose present fields are of
the expected kinds, `create_new_item_from_prototype` returns normally
whatever fields are present or absent, with `IsPrototype` false and
`Contents` equal to the prototype's "contents" value, or the empty list
when that key is absent — default contents are copied from the prototype,
not forced empty. -/
theorem create_new_item_total_on_well_kinded (n : Nat) (p : PyDict)
    (hp : protoFieldsWellKinded p = true) :
    ∃ it, create_new_item_from_prototype n p = some it ∧
      it.IsPrototype = false ∧
      it.Contents = dictGetD p "contents" (.vlist []) := by
  simp only [protoFieldsWellKinded, Bool.and_eq_true] at hp
  obtain ⟨⟨⟨hm, hv⟩, hms⟩, htm⟩ := hp
  obtain ⟨qm, hqm⟩ := decimalOfStr_of_numeric _ hm
  obtain ⟨qv, hqv⟩ := decimalOfStr_of_numeric _ hv
  obtain ⟨qs, hqs⟩ := decimalOfStr_of_numeric _ hms
  cases htmv : dictGetD p "trait_mods" (.vdict [])
  case vdict d =>
    rw [htmv] at htm
    obtain ⟨l, hl⟩ := decimalPairs_of_numeric d htm
    have hl' : traitModsOf (dictGetD p "trait_mods" (.vdict [])) = some l := by
      rw [htmv]
      exact hl
    have hexists : ∃ it, create_new_item_from_prototype n p = some it := by
      unfold create_new_item_from_prototype
      rw [hqm, hqv, hqs, hl']
      exact ⟨_, rfl⟩
    obtain ⟨it, hit⟩ := hexists
    obtain ⟨-, -, -, hproto, hcont⟩ := create_new_item_fields n p it hit
    exact ⟨it, hit, hproto, hcont⟩
  all_goals rw [htmv] at htm; exact Bool.noConfusion htm

/-- Closed instance of the amended C10: a prototype carrying a float mass
and trait_mods builds normally, is not a prototype, and copies its
declared contents. -/
theorem create_new_item_total_on_well_kinded_witness :
    ∃ it, create_new_item_from_prototype 2
        [("mass", .vfloat (3 / 2)), ("contents", .vlist [.vstr "coin"]),
         ("trait_mods", .vdict [("luck", .vint 1)])] = some it ∧
      it.IsPrototype = false ∧
      it.Contents = dictGetD
        [("mass", .vfloat (3 / 2)), ("contents", .vlist [.vstr "coin"]),
         ("trait_mods", .vdict [("luck", .vint 1)])] "contents" (.vlist []) :=
  create_new_item_total_on_well_kinded 2
    [("mass", .vfloat (3 / 2)), ("contents", .vlist [.vstr "coin"]),
     ("trait_mods", .vdict [("luck", .vint 1)])] (by decide)

/-! ## Claim C6 - prototype entries missing PrototypeID -/

/-- A well-formed prototype entry: a dict carrying a string PrototypeID. -/
def protoGood1 : Value := .vdict [("PrototypeID", .vstr "p1"), ("name", .vstr "Axe")]

/-- A malformed prototype entry: no PrototypeID field. -/
def protoBad : Value := .vdict [("name", .vstr "Ghost")]

/-- A second well-formed prototype entry, placed after the malformed one. -/
def protoGood2 : Value := .vdict [("PrototypeID", .vstr "p3"), ("name", .vstr "Bow")]

/-- A prototypes document whose batch holds a malformed entry between two
well-formed ones. -/
def protoBatchDoc : PyDict :=
  [("itemPrototypes", .vlist [protoGood1, protoBad, protoGood2])]

/-- C6 counterexample: storing `protoBatchDoc` into an empty prototypes
table logs an error, stores "p1" — and does *not* store "p3", the
well-formed prototype that follows the malformed entry in the same batch,
refuting the claim that all other prototypes are still stored. -/
theorem store_prototypes_missing_id_counterexample :
    (store_item_prototypes protoBatchDoc).2 = false ∧
    (lookupT "p1"
      (applyW (store_item_prototypes protoBatchDoc).1
        ([] : List (String × PyDict)))).isSome = true ∧
    lookupT "p3"
      (applyW (store_item_prototypes protoBatchDoc).1
        ([] : List (String × PyDict))) = none :=
  ⟨rfl, rfl, rfl⟩

/-- C6 (amended): an entry missing the required PrototypeID field makes
`store_item_prototypes` log one error for the batch — not fatal to the
caller — but the iteration stops there: entries before the malformed one
are written, while the malformed entry and every entry after it in the
same batch are not. -/
theorem store_prototypes_missing_id_aborts_tail (pre post : List Value) (bad : PyDict)
    (hpre : ∀ v ∈ pre, ∃ d s, v = Value.vdict d ∧ lookupT "PrototypeID" d = some (.vstr s))
    (hbad : lookupT "PrototypeID" bad = none) :
    prototypesWrites (pre ++ Value.vdict bad :: post) = ((prototypesWrites pre).1, false) := by
  induction pre with
  | nil =>
    simp [prototypesWrites, dictGet, hbad]
  | cons v pre ih =>
    obtain ⟨d, s, rfl, hd⟩ := hpre v (List.mem_cons_self v pre)
    have ih' := ih (fun w hw => hpre w (List.mem_cons_of_mem _ hw))
    simp [prototypesWrites, dictGet, hd, convert_to_dynamodb_format, keyStr, ih']

/-- Closed instance of the amended C6 on the concrete three-entry batch. -/
theorem store_prototypes_missing_id_aborts_tail_witness :
    prototypesWrites ([protoGood1] ++ Value.vdict [("name", .vstr "Ghost")] :: [protoGood2]) =
      ((prototypesWrites [protoGood1]).1, false) :=
  store_prototypes_missing_id_aborts_tail [protoGood1] [protoGood2]
    [("name", .vstr "Ghost")]
    (by
      intro v hv
      simp only [List.mem_singleton] at hv
      subst hv
      exact ⟨_, "p1", rfl, rfl⟩)
    rfl

/-! ## Claim C7 - the reader performs no rooms-exits join -/

/-- Stored record of Room 1 ("Hallway", no exits). -/
def room1Rec : PyDict :=
  [("RoomID", .vint 1), ("Area", .vstr "zone"), ("Title", .vstr "Hallway"),
   ("Description", .vstr "d1"), ("ExitID", .vlist []), ("ItemID", .vlist [])]

/-- Stored record of Room 2 ("Vault", one exit "e1" East to Room 1). -/
def room2Rec : PyDict :=
  [("RoomID", .vint 2), ("Area", .vstr "zone"), ("Title", .vstr "Vault"),
   ("Description", .vstr "d2"), ("ExitID", .vlist [.vstr "e1"]), ("ItemID", .vlist [])]

/-- Stored record of the exit "e1": East from Room 2 to Room 1, visible. -/
def exitE1Rec : PyDict :=
  [("ExitID", .vstr "e1"), ("Direction", .vstr "East"), ("TargetRoom", .vint 1),
   ("Visible", .vbool true)]

/-- The rooms table after loading the two-room world. -/
def worldRoomsTable : List (Int × PyDict) := [(1, room1Rec), (2, room2Rec)]

/-- The exits table after loading the two-room world. -/
def worldExitsTable : List (String × PyDict) := [("e1", exitE1Rec)]

/-- C7 counterexample: on the concrete two-room world the reader's rooms
result maps RoomID 2 to the flat stored record, and the direction string
"East" occurs nowhere inside either returned room record — so the reader
does not return Room 2 with an attached exit record of direction "East";
no join by RoomID happens. -/
theorem load_rooms_no_join_counterexample :
    lookupT 2 (load_rooms worldRoomsTable) = some room2Rec ∧
    occursStr "East" (.vdict room2Rec) = false ∧
    occursStr "East" (.vdict room1Rec) = false :=
  ⟨rfl, rfl, rfl⟩

/-- C7 (amended): the reader scans the rooms and exits tables
independently and returns two separate dictionaries with no in-memory
join — rooms keyed by RoomID holding the flat stored records (room 1 with
an empty exit-reference list, room 2 referencing exit "e1"), and exits
keyed by ExitID, with "e1" mapping to the record with direction "East",
target RoomID 1 and visible true; exit records are not attached to
rooms. -/
theorem load_rooms_exits_independent :
    load_rooms worldRoomsTable = [(1, room1Rec), (2, room2Rec)] ∧
    load_exits worldExitsTable = [("e1", exitE1Rec)] ∧
    dictGet room1Rec "ExitID" = some (.vlist []) ∧
    dictGet room2Rec "ExitID" = some (.vlist [.vstr "e1"]) ∧
    dictGet exitE1Rec "Direction" = some (.vstr "East") ∧
    dictGet exitE1Rec "TargetRoom" = some (.vint 1) ∧
    dictGet exitE1Rec "Visible" = some (.vbool true) ∧
    occursStrPairs "East" room1Rec = false ∧
    occursStrPairs "East" room2Rec = false :=
  ⟨rfl, rfl, rfl, rfl, rfl, rfl, rfl, rfl, rfl⟩

/-! ## Claim C8 - the storage conversion -/

theorem convertList_eq_map (l : List Value) :
    convertList l = l.map convert_to_dynamodb_format := by
  induction l with
  | nil => simp [convertList]
  | cons v vs ih => simp [convertList, ih]

theorem convertPairs_eq_map (d : PyDict) :
    convertPairs d = d.map (fun kv => (kv.1, convert_to_dynamodb_format kv.2)) := by
  induction d with
  | nil => simp [convertPairs]
  | cons kv kvs ih =>
    obtain ⟨k, v⟩ := kv
    simp [convertPairs, ih]

/-- C8: `convert_to_dynamodb_format` preserves the structural skeleton
(nesting and dict keys) of every value, produces a float-free result,
leaves every already-float-free value — in particular every non-float
leaf — unchanged, maps each float leaf to the Decimal denoting the same
number, and descends through dicts and lists entrywise. -/
theorem convert_preserves_shape_replaces_floats :
    (∀ v, shape (convert_to_dynamodb_format v) = shape v ∧
      floatFree (convert_to_dynamodb_format v) = true ∧
      (floatFree v = true → convert_to_dynamodb_format v = v)) ∧
    (∀ q : ℚ, convert_to_dynamodb_format (.vfloat q) = .vdec q) ∧
    (∀ d : PyDict, convert_to_dynamodb_format (.vdict d) =
      .vdict (d.map (fun kv => (kv.1, convert_to_dynamodb_format kv.2)))) ∧
    (∀ l : List Value, convert_to_dynamodb_format (.vlist l) =
      .vlist (l.map convert_to_dynamodb_format)) :=
  ⟨fun v => ⟨shape_convert v, floatFree_convert v, convert_of_floatFree v⟩,
   fun _ => rfl,
   fun d => by simp [convert_to_dynamodb_format, convertPairs_eq_map],
   fun l => by simp [convert_to_dynamodb_format, convertList_eq_map]⟩

/-- A sample nested value with a float leaf. -/
def sampleNested : Value :=
  .vdict [("a", .vlist [.vfloat (1 / 2), .vint 3]), ("b", .vstr "x")]

/-- A sample float-free nested value. -/
def sampleFloatFree : Value := .vdict [("a", .vlist [.vdec (1 / 2), .vint 3])]

/-- Closed instance of C8 on a concrete nested value with a float leaf
and on a concrete float-free value. -/
theorem convert_preserves_shape_replaces_floats_witness :
    shape (convert_to_dynamodb_format sampleNested) = shape sampleNested ∧
    floatFree (convert_to_dynamodb_format sampleNested) = true ∧
    convert_to_dynamodb_format sampleFloatFree = sampleFloatFree :=
  ⟨(convert_preserves_shape_replaces_floats.1 sampleNested).1,
   (convert_preserves_shape_replaces_floats.1 sampleNested).2.1,
   (convert_preserves_shape_replaces_floats.1 sampleFloatFree).2.2 rfl⟩

/-! ## Claim C9 - idempotence of the bulk load -/

/-- C9: running the bulk load twice with the same world documents leaves
every backing table with the same contents as running it once — the write
sequence each store_* operation issues is a function of the document
alone, and repeating the same full-overwrite upserts maps every key to
the same record; the items table is untouched by the load. -/
theorem loadWorld_idempotent (d : WorldDocs) (s : Store) :
    (loadWorld d (loadWorld d s)).items = (loadWorld d s).items ∧
    (∀ k : String, lookupT k (loadWorld d (loadWorld d s)).exits =
      lookupT k (loadWorld d s).exits) ∧
    (∀ k : Int, lookupT k (loadWorld d (loadWorld d s)).rooms =
      lookupT k (loadWorld d s).rooms) ∧
    (∀ k : String, lookupT k (loadWorld d (loadWorld d s)).archetypes =
      lookupT k (loadWorld d s).archetypes) ∧
    (∀ k : String, lookupT k (loadWorld d (loadWorld d s)).prototypes =
      lookupT k (loadWorld d s).prototypes) :=
  ⟨rfl,
   fun k => lookupT_applyW_twice _ _ k,
   fun k => lookupT_applyW_twice _ _ k,
   fun k => lookupT_applyW_twice _ _ k,
   fun k => lookupT_applyW_twice _ _ k⟩

end MUD
